import Mathlib

/-!
Shallow embedding of the magic-ads event-finder backend
(src/gemini_service.py and src/main.py).

The embedded parts are:
* calendar-date arithmetic and `strftime('%B %d, %Y')` formatting used at
  gemini_service.py lines 99-101;
* the prompt template built at gemini_service.py lines 104-126
  (`find_local_events_via_search`), as a pure function of
  (location, interest_description, timeframe_days, today);
* the response interpretation of gemini_service.py lines 132-156, with the
  external `model.generate_content` call abstracted as a function from the
  prompt string to an outcome (an exception or a response object);
* the `/find-events` handler `find_events_api` of main.py lines 88-131,
  which also records the list of prompts sent to the external service so
  that "no external call was made" is expressible.
-/

namespace MagicAds

/-- Proleptic Gregorian calendar date, as `datetime.date`. -/
structure Date where
  year : Nat
  month : Nat
  day : Nat
deriving DecidableEq

/-- Gregorian leap-year rule used by `datetime`. -/
def isLeapYear (y : Nat) : Bool :=
  (y % 4 == 0 && y % 100 != 0) || y % 400 == 0

/-- Number of days in a month of a given year. -/
def daysInMonth (y m : Nat) : Nat :=
  if m == 2 then (if isLeapYear y then 29 else 28)
  else if m == 4 || m == 6 || m == 9 || m == 11 then 30
  else 31

/-- Successor day in the Gregorian calendar. -/
def nextDay (d : Date) : Date :=
  if d.day < daysInMonth d.year d.month then ⟨d.year, d.month, d.day + 1⟩
  else if d.month < 12 then ⟨d.year, d.month + 1, 1⟩
  else ⟨d.year + 1, 1, 1⟩

/-- `d + datetime.timedelta(days = n)`: n-fold calendar-day successor. -/
def addDays (d : Date) : Nat → Date
  | 0 => d
  | n + 1 => nextDay (addDays d n)

/-- Full English month name, as `strftime('%B')`. -/
def monthName : Nat → String
  | 1 => "January"
  | 2 => "February"
  | 3 => "March"
  | 4 => "April"
  | 5 => "May"
  | 6 => "June"
  | 7 => "July"
  | 8 => "August"
  | 9 => "September"
  | 10 => "October"
  | 11 => "November"
  | 12 => "December"
  | _ => ""

/-- Zero-padded two-digit day, as `strftime('%d')`. -/
def pad2 (n : Nat) : String :=
  if n < 10 then "0" ++ toString n else toString n

/-- `d.strftime('%B %d, %Y')`, e.g. "April 01, 2025". -/
def strftimeBdY (d : Date) : String :=
  monthName d.month ++ " " ++ pad2 d.day ++ ", " ++ toString d.year

/-- Characters before the first comma of a list. -/
def takeUntilComma : List Char → List Char
  | [] => []
  | c :: rest => if c == ',' then [] else c :: takeUntilComma rest

/-- `location.split(',')[0]` (gemini_service.py line 112): the part of the
location before the first comma, or the whole string when it has no comma. -/
def splitHead (location : String) : String :=
  String.mk (takeUntilComma location.data)

example : splitHead "Blaine, MN" = "Blaine" := by decide

example : splitHead "Paris" = "Paris" := by decide

/-- `date_range_str` of gemini_service.py lines 99-101:
`f"{today.strftime('%B %d, %Y')} and {end_date.strftime('%B %d, %Y')}"`. -/
def dateRangeStr (today : Date) (timeframe_days : Nat) : String :=
  strftimeBdY today ++ " and " ++ strftimeBdY (addDays today timeframe_days)

/-- Segment of the prompt template before the first `{location}` slot. -/
def promptSeg0 : String :=
  "\n    Act as a helpful local event finder assistant for "

/-- Template segment between the first `{location}` and the second. -/
def promptSeg1 : String :=
  ". Your task is to find upcoming events based on a user\x27s specific interest.\n\n    **Location Focus:** "

/-- Template segment between the second `{location}` and `{date_range_str}`. -/
def promptSeg2 : String :=
  " (and immediately surrounding areas if relevant).\n    **Timeframe:** Events happening between "

/-- Template segment between `{date_range_str}` and the first `{interest_description}`. -/
def promptSeg3 : String :=
  ".\n    **User\x27s Interest:** Find events related to \""

/-- Template segment between the first `{interest_description}` and `{location.split(',')[0]}`. -/
def promptSeg4 : String :=
  "\". Interpret this interest broadly but accurately. For example, if the interest is \x27live acoustic music\x27, look for concerts, open mic nights, coffee shop performances etc. If it\x27s \x27volunteer gardening\x27, look for park cleanups, community garden work days, planting events etc.\n\n    **Instructions:**\n    1.  **Use your web search capability extensively** to scan local news sites, city websites ("

/-- Template segment between `{location.split(',')[0]}` and the third `{location}`. -/
def promptSeg5 : String :=
  " city website), community calendars, park districts, libraries, Facebook events (if accessible), Eventbrite, and other relevant online sources for "

/-- Template segment between the third `{location}` and the second `{interest_description}`. -/
def promptSeg6 : String :=
  ".\n    2.  Filter the search results to find events that strongly match the user\x27s interest: \""

/-- Template segment between the second and third `{interest_description}` slots. -/
def promptSeg7 : String :=
  "\".\n    3.  For each matching event found, extract and list the following information clearly:\n        * Event Name/Title\n        * Date(s) and Time(s) (if available)\n        * Specific Venue/Location (if available)\n        * A brief summary or description of the event and why it matches the interest.\n        * Source/Link where you found the information (if possible).\n    4.  Format the results as a clean, easy-to-read list (e.g., using Markdown bullet points or numbered lists).\n    5.  If you cannot find any events matching the criteria within the timeframe after searching, explicitly state that \"No specific events matching \x27"

/-- Template segment between the third `{interest_description}` and the fourth `{location}`. -/
def promptSeg8 : String :=
  "\x27 were found in "

/-- Template segment between the fourth `{location}` and `{timeframe_days}`. -/
def promptSeg9 : String :=
  " for the next "

/-- Template segment after `{timeframe_days}`, to the end of the prompt. -/
def promptSeg10 : String :=
  " days.\"\n    6.  Do not include events outside the specified timeframe.\n    7.  Do not invent events. Only list events based on your web search findings.\n\n    Begin search and report your findings.\n    "

/-- The prompt built by `find_local_events_via_search`
(gemini_service.py lines 99-126), as a pure function of the three request
fields and the current date. -/
def promptFor (location interest_description : String) (timeframe_days : Nat)
    (today : Date) : String :=
  promptSeg0 ++ location ++ promptSeg1 ++ location ++ promptSeg2 ++
    dateRangeStr today timeframe_days ++ promptSeg3 ++ interest_description ++
    promptSeg4 ++ splitHead location ++ promptSeg5 ++ location ++ promptSeg6 ++
    interest_description ++ promptSeg7 ++ interest_description ++ promptSeg8 ++
    location ++ promptSeg9 ++ toString timeframe_days ++ promptSeg10

example : strftimeBdY ⟨2025, 4, 1⟩ = "April 01, 2025" := by decide

example : addDays ⟨2025, 4, 1⟩ 14 = ⟨2025, 4, 15⟩ := by decide

/-- Shape of the response object returned by `model.generate_content`, with
the fields `find_local_events_via_search` inspects: `response.parts`,
`response.prompt_feedback.block_reason` (None models a falsy/absent reason,
`some name` a truthy reason whose `.name` is `name`), and `response.text`
(`hasText` models `hasattr(response, 'text')`; a present empty string is
falsy in Python, which the code checks separately). -/
structure GeminiResponse where
  parts : List String
  blockReason : Option String
  hasText : Bool
  text : String
deriving DecidableEq

/-- Outcome of the external `model.generate_content` call: it either raises
an exception carrying a message or returns a response object. -/
inductive CallOutcome where
  | raises (msg : String)
  | responds (response : GeminiResponse)
deriving DecidableEq

/-- `find_local_events_via_search` (gemini_service.py lines 75-156), with the
external service abstracted as `call : prompt ↦ outcome` and the ambient
`datetime.date.today()` passed as `today`.  Returns the function's normal or
exceptional result (the `except` clause at lines 153-156 re-raises, so every
internal `raise` escapes as `Except.error`) together with the list of prompts
sent to the external service. -/
def find_local_events_via_search (call : String → CallOutcome)
    (location interest_description : String) (timeframe_days : Nat)
    (today : Date) : Except String String × List String :=
  let prompt := promptFor location interest_description timeframe_days today
  match call prompt with
  | CallOutcome.raises msg => (Except.error msg, [prompt])
  | CallOutcome.responds response =>
    if response.parts.isEmpty then
      match response.blockReason with
      | some reason =>
        (Except.error ("Content generation blocked. Reason: " ++ reason), [prompt])
      | none =>
        if response.hasText && response.text != "" then
          (Except.ok response.text, [prompt])
        else
          (Except.error "Content generation failed. Received an empty response.", [prompt])
    else
      (Except.ok response.text, [prompt])

/-- `EventRequest` (main.py lines 20-23): the POST /find-events body has
exactly these two fields; the commented-out `timeframe_days` field is absent. -/
structure EventRequest where
  interest_description : String
  location : String
deriving DecidableEq

/-- `EventResponse` (main.py lines 25-27). -/
structure EventResponse where
  results_text : String
  error : Option String
deriving DecidableEq

/-- The `timeframe_days` default of `find_local_events_via_search`
(gemini_service.py line 79), in force because main.py line 108-115 omits the
argument. -/
def timeframe_days_default : Nat := 14

/-- `find_events_api` (main.py lines 88-131).  `gemini_model` is the global
client handle (`none` models an uninitialized client, which is falsy).
Besides the `EventResponse`, the embedding returns the list of prompts sent
to the external service, so that "no external call" is `[]`.  The function is
total: every failure is normalized to an `EventResponse`, modelling that no
exception propagates past the handler. -/
def find_events_api (gemini_model : Option Unit) (call : String → CallOutcome)
    (request_data : EventRequest) (today : Date) : EventResponse × List String :=
  match gemini_model with
  | none =>
    (⟨"", some "AI model is not available. Please check server logs or try again later."⟩, [])
  | some _ =>
    match find_local_events_via_search call request_data.location
        request_data.interest_description timeframe_days_default today with
    | (Except.ok generated_text_summary, sent) =>
      (⟨generated_text_summary, none⟩, sent)
    | (Except.error e, sent) =>
      (⟨"", some ("Failed to find events: " ++ e)⟩, sent)

/-- `t` occurs as a contiguous substring of `s`. -/
def strContains (s t : String) : Prop :=
  ∃ pre post : String, s = pre ++ (t ++ post)

/-- `s` begins with `t`. -/
def strStarts (s t : String) : Prop :=
  ∃ rest : String, s = t ++ rest

/-- Number of positions of `s` at which the pattern `t` starts. -/
def occurrences (t : List Char) : List Char → Nat
  | [] => 0
  | c :: rest =>
    (if t.isPrefixOf (c :: rest) then 1 else 0) + occurrences t rest

/-- Counting starts of a one-character pattern is counting that character. -/
theorem occurrences_singleton (c : Char) (l : List Char) :
    occurrences [c] l = l.count c := by
  induction l with
  | nil => simp [occurrences]
  | cons a l ih =>
    by_cases h : c = a
    · subst h
      simp [occurrences, List.isPrefixOf, List.count_cons, ih, Nat.add_comm]
    · simp [occurrences, List.isPrefixOf, List.count_cons, ih, h, Ne.symm h]

/-- The prompt contains the location literally (its second `{location}` slot,
gemini_service.py line 107). -/
theorem prompt_contains_location (loc int : String) (n : Nat) (d : Date) :
    strContains (promptFor loc int n d) loc :=
  ⟨promptSeg0,
   promptSeg1 ++ loc ++ promptSeg2 ++ dateRangeStr d n ++ promptSeg3 ++ int ++
     promptSeg4 ++ splitHead loc ++ promptSeg5 ++ loc ++ promptSeg6 ++ int ++
     promptSeg7 ++ int ++ promptSeg8 ++ loc ++ promptSeg9 ++ toString n ++ promptSeg10,
   by simp [promptFor, String.append_assoc]⟩

/-- The prompt contains the interest description literally (its first
`{interest_description}` slot, gemini_service.py line 109). -/
theorem prompt_contains_interest (loc int : String) (n : Nat) (d : Date) :
    strContains (promptFor loc int n d) int :=
  ⟨promptSeg0 ++ loc ++ promptSeg1 ++ loc ++ promptSeg2 ++ dateRangeStr d n ++ promptSeg3,
   promptSeg4 ++ splitHead loc ++ promptSeg5 ++ loc ++ promptSeg6 ++ int ++
     promptSeg7 ++ int ++ promptSeg8 ++ loc ++ promptSeg9 ++ toString n ++ promptSeg10,
   by simp [promptFor, String.append_assoc]⟩

/-- The prompt contains the formatted current date (the start of
`date_range_str`, gemini_service.py line 101). -/
theorem prompt_contains_start_date (loc int : String) (n : Nat) (d : Date) :
    strContains (promptFor loc int n d) (strftimeBdY d) :=
  ⟨promptSeg0 ++ loc ++ promptSeg1 ++ loc ++ promptSeg2,
   " and " ++ strftimeBdY (addDays d n) ++ promptSeg3 ++ int ++
     promptSeg4 ++ splitHead loc ++ promptSeg5 ++ loc ++ promptSeg6 ++ int ++
     promptSeg7 ++ int ++ promptSeg8 ++ loc ++ promptSeg9 ++ toString n ++ promptSeg10,
   by simp [promptFor, dateRangeStr, String.append_assoc]⟩

/-- The prompt contains the formatted end date, the current date advanced by
`timeframe_days` calendar days (gemini_service.py lines 100-101). -/
theorem prompt_contains_end_date (loc int : String) (n : Nat) (d : Date) :
    strContains (promptFor loc int n d) (strftimeBdY (addDays d n)) :=
  ⟨promptSeg0 ++ loc ++ promptSeg1 ++ loc ++ promptSeg2 ++ strftimeBdY d ++ " and ",
   promptSeg3 ++ int ++
     promptSeg4 ++ splitHead loc ++ promptSeg5 ++ loc ++ promptSeg6 ++ int ++
     promptSeg7 ++ int ++ promptSeg8 ++ loc ++ promptSeg9 ++ toString n ++ promptSeg10,
   by simp [promptFor, dateRangeStr, String.append_assoc]⟩

/-- Claim C1: when the model client is available and the external call raises
an exception with message `msg`, `find_events_api` returns `results_text = ""`
and an error containing `msg`; the handler is a total function, so no
exception passes its boundary. -/
theorem c1_exception_caught_and_normalized (msg : String) (call : String → CallOutcome)
    (req : EventRequest) (d : Date)
    (h : call (promptFor req.location req.interest_description timeframe_days_default d) =
      CallOutcome.raises msg) :
    (find_events_api (some ()) call req d).1 =
      ⟨"", some ("Failed to find events: " ++ msg)⟩ ∧
    strContains ("Failed to find events: " ++ msg) msg := by
  constructor
  · simp [find_events_api, find_local_events_via_search, h]
  · exact ⟨"Failed to find events: ", "", by rw [String.append_empty]⟩

/-- Witness for C1 at the concrete exception message "quota exceeded". -/
theorem c1_witness :
    (fun _ : String => CallOutcome.raises "quota exceeded")
        (promptFor (EventRequest.mk "live music" "Blaine, MN").location
          (EventRequest.mk "live music" "Blaine, MN").interest_description
          timeframe_days_default ⟨2025, 4, 1⟩) =
      CallOutcome.raises "quota exceeded" ∧
    ((find_events_api (some ()) (fun _ => CallOutcome.raises "quota exceeded")
        ⟨"live music", "Blaine, MN"⟩ ⟨2025, 4, 1⟩).1 =
      ⟨"", some ("Failed to find events: " ++ "quota exceeded")⟩ ∧
    strContains ("Failed to find events: " ++ "quota exceeded") "quota exceeded") :=
  ⟨rfl,
   c1_exception_caught_and_normalized "quota exceeded"
     (fun _ => CallOutcome.raises "quota exceeded") ⟨"live music", "Blaine, MN"⟩
     ⟨2025, 4, 1⟩ rfl⟩

/-- Claim C2: with an uninitialized client (`none`), `find_events_api` returns
`results_text = ""` and the fixed message beginning "AI model is not
available", and sends no prompt to the external service (the sent list is
empty), for every possible external-call behavior. -/
theorem c2_no_client_short_circuit (call : String → CallOutcome)
    (req : EventRequest) (d : Date) :
    find_events_api none call req d =
      (⟨"", some "AI model is not available. Please check server logs or try again later."⟩,
        []) ∧
    strStarts "AI model is not available. Please check server logs or try again later."
      "AI model is not available" :=
  ⟨rfl, ⟨". Please check server logs or try again later.", rfl⟩⟩

/-- Claim C3: for a positive timeframe, the prompt contains the interest
description literally, the location literally, and the `%B %d, %Y`-formatted
current date and current date plus `timeframe_days` calendar days. -/
theorem c3_prompt_embeds_request_fields (loc int : String) (n : Nat) (d : Date)
    (h : 0 < n) :
    strContains (promptFor loc int n d) int ∧
    strContains (promptFor loc int n d) loc ∧
    strContains (promptFor loc int n d) (strftimeBdY d) ∧
    strContains (promptFor loc int n d) (strftimeBdY (addDays d n)) :=
  ⟨prompt_contains_interest loc int n d, prompt_contains_location loc int n d,
   prompt_contains_start_date loc int n d, prompt_contains_end_date loc int n d⟩

/-- Witness for C3 at a concrete request and date. -/
theorem c3_witness :
    0 < 14 ∧
    (strContains (promptFor "Blaine, MN" "live music" 14 ⟨2025, 4, 1⟩) "live music" ∧
     strContains (promptFor "Blaine, MN" "live music" 14 ⟨2025, 4, 1⟩) "Blaine, MN" ∧
     strContains (promptFor "Blaine, MN" "live music" 14 ⟨2025, 4, 1⟩)
       (strftimeBdY ⟨2025, 4, 1⟩) ∧
     strContains (promptFor "Blaine, MN" "live music" 14 ⟨2025, 4, 1⟩)
       (strftimeBdY (addDays ⟨2025, 4, 1⟩ 14))) :=
  ⟨by decide,
   c3_prompt_embeds_request_fields "Blaine, MN" "live music" 14 ⟨2025, 4, 1⟩ (by decide)⟩

/-- Claim C4: with `timeframe_days = 14` and current date 2025-04-01, the end
date formats as "April 15, 2025", and both "April 01, 2025" and
"April 15, 2025" appear verbatim in the prompt, whatever the location and
interest are. -/
theorem c4_concrete_dates_in_prompt (loc int : String) :
    strftimeBdY (addDays ⟨2025, 4, 1⟩ 14) = "April 15, 2025" ∧
    strContains (promptFor loc int 14 ⟨2025, 4, 1⟩) "April 01, 2025" ∧
    strContains (promptFor loc int 14 ⟨2025, 4, 1⟩) "April 15, 2025" := by
  refine ⟨by decide, ?_, ?_⟩
  · have h : strftimeBdY (⟨2025, 4, 1⟩ : Date) = "April 01, 2025" := by decide
    have hc := prompt_contains_start_date loc int 14 ⟨2025, 4, 1⟩
    rwa [h] at hc
  · have h : strftimeBdY (addDays ⟨2025, 4, 1⟩ 14) = "April 15, 2025" := by decide
    have hc := prompt_contains_end_date loc int 14 ⟨2025, 4, 1⟩
    rwa [h] at hc

/-- Claim C5: when the external call returns a response with empty parts and a
truthy block reason, the handler returns `results_text = ""` and an error
containing the block reason's name. -/
theorem c5_block_reason_surfaced (reason : String) (ht : Bool) (tx : String)
    (call : String → CallOutcome) (req : EventRequest) (d : Date)
    (h : call (promptFor req.location req.interest_description timeframe_days_default d) =
      CallOutcome.responds ⟨[], some reason, ht, tx⟩) :
    (find_events_api (some ()) call req d).1 =
      ⟨"", some ("Failed to find events: Content generation blocked. Reason: " ++ reason)⟩ ∧
    strContains ("Failed to find events: Content generation blocked. Reason: " ++ reason)
      reason := by
  constructor
  · simp [find_events_api, find_local_events_via_search, h]
    rw [← String.append_assoc]
    congr 1
  · exact ⟨"Failed to find events: Content generation blocked. Reason: ", "",
      by rw [String.append_empty]⟩

/-- Witness for C5 at the concrete block reason "SAFETY". -/
theorem c5_witness :
    (fun _ : String => CallOutcome.responds ⟨[], some "SAFETY", false, ""⟩)
        (promptFor (EventRequest.mk "live music" "Blaine, MN").location
          (EventRequest.mk "live music" "Blaine, MN").interest_description
          timeframe_days_default ⟨2025, 4, 1⟩) =
      CallOutcome.responds ⟨[], some "SAFETY", false, ""⟩ ∧
    ((find_events_api (some ())
        (fun _ => CallOutcome.responds ⟨[], some "SAFETY", false, ""⟩)
        ⟨"live music", "Blaine, MN"⟩ ⟨2025, 4, 1⟩).1 =
      ⟨"", some ("Failed to find events: Content generation blocked. Reason: " ++ "SAFETY")⟩ ∧
    strContains ("Failed to find events: Content generation blocked. Reason: " ++ "SAFETY")
      "SAFETY") :=
  ⟨rfl,
   c5_block_reason_surfaced "SAFETY" false ""
     (fun _ => CallOutcome.responds ⟨[], some "SAFETY", false, ""⟩)
     ⟨"live music", "Blaine, MN"⟩ ⟨2025, 4, 1⟩ rfl⟩

/-- Claim C6: when the external call returns a response with empty parts, no
block reason, and a present non-empty raw text field, the handler returns that
raw text as `results_text` with `error = none`. -/
theorem c6_fallback_text_returned (t : String) (call : String → CallOutcome)
    (req : EventRequest) (d : Date)
    (h : call (promptFor req.location req.interest_description timeframe_days_default d) =
      CallOutcome.responds ⟨[], none, true, t⟩)
    (hne : t ≠ "") :
    (find_events_api (some ()) call req d).1 = ⟨t, none⟩ := by
  simp [find_events_api, find_local_events_via_search, h, hne]

/-- Witness for C6 at the concrete fallback text "Found 2 events...". -/
theorem c6_witness :
    (fun _ : String => CallOutcome.responds ⟨[], none, true, "Found 2 events..."⟩)
        (promptFor (EventRequest.mk "live music" "Blaine, MN").location
          (EventRequest.mk "live music" "Blaine, MN").interest_description
          timeframe_days_default ⟨2025, 4, 1⟩) =
      CallOutcome.responds ⟨[], none, true, "Found 2 events..."⟩ ∧
    ("Found 2 events..." : String) ≠ "" ∧
    (find_events_api (some ())
        (fun _ => CallOutcome.responds ⟨[], none, true, "Found 2 events..."⟩)
        ⟨"live music", "Blaine, MN"⟩ ⟨2025, 4, 1⟩).1 =
      ⟨"Found 2 events...", none⟩ :=
  ⟨rfl, by decide,
   c6_fallback_text_returned "Found 2 events..."
     (fun _ => CallOutcome.responds ⟨[], none, true, "Found 2 events..."⟩)
     ⟨"live music", "Blaine, MN"⟩ ⟨2025, 4, 1⟩ rfl (by decide)⟩

/-- Claim C7: when the external call returns a response with empty parts, no
block reason, and no usable text (the text attribute is absent, or present but
empty), the handler returns `results_text = ""` and the generic
empty-response failure message. -/
theorem c7_empty_response_generic_error (ht : Bool) (tx : String)
    (call : String → CallOutcome) (req : EventRequest) (d : Date)
    (h : call (promptFor req.location req.interest_description timeframe_days_default d) =
      CallOutcome.responds ⟨[], none, ht, tx⟩)
    (husable : ht = false ∨ tx = "") :
    (find_events_api (some ()) call req d).1 =
      ⟨"", some "Failed to find events: Content generation failed. Received an empty response."⟩ := by
  rcases husable with hb | hb <;>
    simp [find_events_api, find_local_events_via_search, h, hb]

/-- Witness for C7 with the text attribute absent. -/
theorem c7_witness :
    (fun _ : String => CallOutcome.responds ⟨[], none, false, ""⟩)
        (promptFor (EventRequest.mk "live music" "Blaine, MN").location
          (EventRequest.mk "live music" "Blaine, MN").interest_description
          timeframe_days_default ⟨2025, 4, 1⟩) =
      CallOutcome.responds ⟨[], none, false, ""⟩ ∧
    (false = false ∨ ("" : String) = "") ∧
    (find_events_api (some ()) (fun _ => CallOutcome.responds ⟨[], none, false, ""⟩)
        ⟨"live music", "Blaine, MN"⟩ ⟨2025, 4, 1⟩).1 =
      ⟨"", some "Failed to find events: Content generation failed. Received an empty response."⟩ :=
  ⟨rfl, Or.inl rfl,
   c7_empty_response_generic_error false ""
     (fun _ => CallOutcome.responds ⟨[], none, false, ""⟩)
     ⟨"live music", "Blaine, MN"⟩ ⟨2025, 4, 1⟩ rfl (Or.inl rfl)⟩

/-- Claim C8: the prompt builder is deterministic: equal inputs (location,
interest, timeframe, current date) give byte-identical prompt text.  It is a
pure Lean function of these four values, so it has no hidden state and
mutates nothing. -/
theorem c8_prompt_builder_deterministic (l₁ i₁ : String) (n₁ : Nat) (d₁ : Date)
    (l₂ i₂ : String) (n₂ : Nat) (d₂ : Date)
    (hl : l₁ = l₂) (hi : i₁ = i₂) (hn : n₁ = n₂) (hd : d₁ = d₂) :
    promptFor l₁ i₁ n₁ d₁ = promptFor l₂ i₂ n₂ d₂ := by
  subst hl hi hn hd
  rfl

/-- Witness for C8 at a concrete repeated invocation. -/
theorem c8_witness :
    ("Blaine, MN" : String) = "Blaine, MN" ∧ ("live music" : String) = "live music" ∧
    (14 : Nat) = 14 ∧ (⟨2025, 4, 1⟩ : Date) = ⟨2025, 4, 1⟩ ∧
    promptFor "Blaine, MN" "live music" 14 ⟨2025, 4, 1⟩ =
      promptFor "Blaine, MN" "live music" 14 ⟨2025, 4, 1⟩ :=
  ⟨rfl, rfl, rfl, rfl,
   c8_prompt_builder_deterministic "Blaine, MN" "live music" 14 ⟨2025, 4, 1⟩
     "Blaine, MN" "live music" 14 ⟨2025, 4, 1⟩ rfl rfl rfl rfl⟩

set_option maxRecDepth 4000 in
/-- Counterexample to C9 as stated: for the distinctive one-character interest
"Q" (which occurs nowhere else in the template or in the location
"Blaine, MN"), the generated prompt embeds the interest three times, not
exactly twice. -/
theorem c9_counterexample_three_not_two :
    occurrences ("Q".data) (promptFor "Blaine, MN" "Q" 14 ⟨2025, 4, 1⟩).data = 3 ∧
    occurrences ("Q".data) (promptFor "Blaine, MN" "Q" 14 ⟨2025, 4, 1⟩).data ≠ 2 := by
  have h3 : occurrences ("Q".data) (promptFor "Blaine, MN" "Q" 14 ⟨2025, 4, 1⟩).data = 3 := by
    have hq : ("Q".data) = ['Q'] := rfl
    rw [hq, occurrences_singleton]
    simp only [promptFor, dateRangeStr, String.data_append, List.count_append]
    decide
  exact ⟨h3, by rw [h3]; decide⟩

/-- Claim C9 as amended: the prompt embeds the interest description at three
placeholder slots, not two: the "User's Interest" line (gemini_service.py
line 109), the filter instruction (line 113), and the mandated "no results"
fallback sentence (line 121). -/
theorem c9_amended_interest_embedded_three_times (loc int : String) (n : Nat) (d : Date) :
    ∃ p₁ p₂ p₃ p₄ : String,
      promptFor loc int n d = p₁ ++ (int ++ (p₂ ++ (int ++ (p₃ ++ (int ++ p₄))))) :=
  ⟨promptSeg0 ++ loc ++ promptSeg1 ++ loc ++ promptSeg2 ++ dateRangeStr d n ++ promptSeg3,
   promptSeg4 ++ splitHead loc ++ promptSeg5 ++ loc ++ promptSeg6,
   promptSeg7,
   promptSeg8 ++ loc ++ promptSeg9 ++ toString n ++ promptSeg10,
   by simp [promptFor, String.append_assoc]⟩

/-- Claim C10: for every request body and every external-call behavior, the
handler with an available client sends exactly one prompt, built with the
default timeframe of 14 days; the `EventRequest` body has no timeframe field
to override it. -/
theorem c10_default_timeframe_fourteen (call : String → CallOutcome)
    (req : EventRequest) (d : Date) :
    timeframe_days_default = 14 ∧
    (find_events_api (some ()) call req d).2 =
      [promptFor req.location req.interest_description 14 d] := by
  refine ⟨rfl, ?_⟩
  simp only [find_events_api, find_local_events_via_search, timeframe_days_default]
  rcases hc : call (promptFor req.location req.interest_description 14 d) with msg | r
  · simp [hc]
  · rcases r with ⟨parts, br, ht, tx⟩
    rcases br with _ | reason <;> rcases parts with _ | ⟨p, ps⟩
    · by_cases hb : ht = true ∧ ¬tx = ""
      · simp [hc, hb]
      · simp [hc, hb]
    all_goals simp [hc]

end MagicAds
